import Mathlib

/-
Shallow embedding of `src/adb2re.py` (class `Adb2re`), a wrapper around the
ADB2RE stored procedure.

Modelling conventions:
* Python strings are modelled as `List Char` (`PyString`); string literals are
  written `pyStr "..."`; `+` on strings is `++`.
* Python `is` / `is not` applied to strings is modelled as value (in)equality.
  The source only ever compares attribute values against the interned literals
  they were initialised from, where CPython object identity coincides with
  value equality; the spec itself directs that these comparisons be read as
  value comparisons.
* The configuration globals imported from `libs.aoc.utility`
  (`DB2_VERSION`, `LPAR`, `DB2_SUBSYSTEM_ID`, `TSO_USER_ID`, `ACCEPT_FL`,
  `PASSWORD`, `TARGET`, `LPAR_SSID`) are gathered in a `Config` record;
  `LPAR_SSID[LPAR][ssid]` is modelled by the total lookup `Config.portOf`.
* The instance state of class `Adb2re` is the record `Adb2re`; each method
  is a Lean function taking the state explicitly.  Methods that mutate state
  return a new state; methods that can raise return `Except PyErr _`.
  `execute` returns `Except (PyErr × Adb2re) Adb2re`: on failure the error is
  paired with the state as mutated up to the point of the raise, mirroring
  Python's in-place mutation surviving an exception.
* The external world touched by `execute` (the JDBC connection, the stored
  procedure's result rows of which only column 1 is read as `row[1]`, and the
  z/OSMF read of the report data set) is abstracted into `ExternalWorld`;
  external transport failures are out of scope.
* The terminator argument of `assert_text_between_terminators` is modelled as
  a single character, matching its default `';'` and the spec's description
  of it as "a terminator character".
-/

/-- Python strings, modelled as lists of characters. -/
abbrev PyString := List Char

/-- Embed a Lean string literal as a `PyString`. -/
def pyStr (s : String) : PyString := s.toList

/-- `leadsWith pat s` holds when `pat` is an initial segment of `s`. -/
def leadsWith : PyString → PyString → Bool
  | [], _ => true
  | _ :: _, [] => false
  | a :: as, b :: bs => decide (a = b) && leadsWith as bs

/-- `occursIn pat s` models Python's substring test `pat in s`
(equivalently `s.count(pat) > 0`, the form the source uses):
`pat` occurs contiguously somewhere in `s`.  The empty pattern occurs
in every string, as in Python. -/
def occursIn (pat : PyString) : PyString → Bool
  | [] => leadsWith pat []
  | s@(_ :: rest) => leadsWith pat s || occursIn pat rest

/-- Python's `s.split(c)` for a one-character separator `c`: cut `s` at every
occurrence of `c`, keeping empty pieces, producing one more piece than there
are occurrences of `c`. -/
def splitCh (c : Char) : PyString → List PyString
  | [] => [[]]
  | a :: as =>
    let r := splitCh c as
    if a = c then [] :: r else (a :: r.headI) :: r.tail

/-- The failure modes of `adb2re.py`.  The source raises bare `Exception`s
with distinguishing messages; the spec names them `ConfigurationError`,
`NotExecutedError`, `FormatError`, `ChecklistMismatchError`,
`ReportAssertionError`.  Each constructor carries the diagnostic data the
corresponding message interpolates. -/
inductive PyErr where
  /-- `execute` with an empty `request_list` (a `ConfigurationError`). -/
  | configurationEmptyRequestList : PyErr
  /-- `assert_text_in_report` with no report destination configured
  (a `ConfigurationError`). -/
  | configurationNoReportDest : PyErr
  /-- accessor or assertion called before the first successful `execute`
  (a `NotExecutedError`). -/
  | notExecuted : PyErr
  /-- terminator absent from the DDL (a `FormatError`). -/
  | formatError (term : Char) (ddl : PyString) : PyErr
  /-- a checklist row found its first item in `stmt` but the item at 1-based
  position `count` is absent from that same statement
  (a `ChecklistMismatchError`). -/
  | checklistItemMismatch (sublist : List PyString) (count : Nat)
      (item : PyString) (stmt : PyString) (ddl : PyString) : PyErr
  /-- a checklist row whose first item was found in no statement
  (a `ChecklistMismatchError` naming the whole row). -/
  | checklistRowUnmatched (sublist : List PyString) : PyErr
  /-- a line required in (resp. forbidden from) the report was absent
  (resp. present) (a `ReportAssertionError`). -/
  | reportAssertion (line : PyString) (report : PyString) (positive : Bool) : PyErr
  deriving DecidableEq

/-- The configuration globals `adb2re.py` imports from `libs.aoc.utility`. -/
structure Config where
  DB2_VERSION : PyString
  LPAR : PyString
  DB2_SUBSYSTEM_ID : PyString
  TSO_USER_ID : PyString
  ACCEPT_FL : PyString
  PASSWORD : PyString
  TARGET : PyString
  /-- `LPAR_SSID[LPAR][ssid]`, the port lookup for the resident LPAR. -/
  portOf : PyString → PyString

/-- `DB2REL_CONFIG`: the configured Db2 version, padded with `"15"` when the
configuration still supplies only two characters. -/
def db2relConfig (cfg : Config) : PyString :=
  if cfg.DB2_VERSION.length = 2 then cfg.DB2_VERSION ++ pyStr "15"
  else cfg.DB2_VERSION

/-- The instance state of class `Adb2re`: every (class-level) attribute the
methods read or write.  Fields keep the source's names. -/
structure Adb2re where
  PORT : PyString
  DB2SYS : PyString
  DB2ALOC : PyString
  DB2SERV : PyString
  DB2AUTH : PyString
  DB2REL : PyString
  GENSG : PyString
  GENDB : PyString
  GENTS : PyString
  GENTABLE : PyString
  GENVIEW : PyString
  GENINDEX : PyString
  GENSYN : PyString
  GENALIAS : PyString
  GENUDT : PyString
  GENUDF : PyString
  GENSTP : PyString
  GENSEQ : PyString
  GENVAR : PyString
  GENLABEL : PyString
  GENCOMM : PyString
  GENRELS : PyString
  GENTRIG : PyString
  GENTRUST : PyString
  GENROLE : PyString
  GENMASK : PyString
  GENPERM : PyString
  GENSEQAL : PyString
  GRANTSG : PyString
  GRANTDB : PyString
  GRANTTS : PyString
  GRANTTAB : PyString
  GRANTVW : PyString
  GRANTSCH : PyString
  GRANTUDT : PyString
  GRANTUDF : PyString
  GRANTSTP : PyString
  GRANTSEQ : PyString
  GRANTVAR : PyString
  ACCEPT_FL : PyString
  ACTVCNTL : PyString
  CATALOGSTATISTICS : PyString
  TCATQUAL : PyString
  TGTFL : PyString
  SYSCOLDIST : PyString
  SYSCOLDISTSTATS : PyString
  SYSCOLSTATS : PyString
  SYSCOLUMNS : PyString
  SYSINDEX : PyString
  SYSIXPART : PyString
  SYSIXSTATS : PyString
  SYSLOBSTATS : PyString
  SYSTBPART : PyString
  SYSTABLES : PyString
  SYSTABLESPACE : PyString
  SYSIXPSTATS : PyString
  SYSTSPSTATS : PyString
  SYSROUTINES : PyString
  SYSKEYTGTDIST : PyString
  SYSKEYTGTDISTSTATS : PyString
  SYSKEYTARGETSTATS : PyString
  NEWSQLID : PyString
  NEWGRANTOR : PyString
  NEWDB : PyString
  NEWTSSG : PyString
  NEWIXSG : PyString
  PENDCHGS : PyString
  SPCALLOC : PyString
  TGTDB2 : PyString
  DEFAULTS : PyString
  COMMITFR : PyString
  RUNSQLID : PyString
  SQLCMTS : PyString
  SQL_OUTFLAG : PyString
  SQL_DSNAME : PyString
  SQL_MEMBER : PyString
  SQL_UNIT : PyString
  SQL_VOLSER : PyString
  sql_output_list : PyString
  RPT_OUTFLAG : PyString
  RPT_DSNAME : PyString
  RPT_MEMBER : PyString
  RPT_UNIT : PyString
  RPT_VOLSER : PyString
  rpt_output_list : PyString
  DEBUG_MODE : Bool
  parameter_list : PyString
  request_list : PyString
  ddl_as_array : List PyString
  ddl_as_string : PyString
  executed_at_least_once : Bool
  saved_report : PyString
  deriving DecidableEq

/-- A freshly constructed `Adb2re` instance: every attribute at the
class-level default computed from the configuration. -/
def freshState (cfg : Config) : Adb2re where
  PORT := cfg.portOf cfg.DB2_SUBSYSTEM_ID
  DB2SYS := cfg.DB2_SUBSYSTEM_ID
  DB2ALOC := []
  DB2SERV := cfg.LPAR ++ cfg.DB2_SUBSYSTEM_ID
  DB2AUTH := cfg.TSO_USER_ID
  DB2REL := db2relConfig cfg
  GENSG := pyStr "N"
  GENDB := pyStr "N"
  GENTS := pyStr "N"
  GENTABLE := pyStr "N"
  GENVIEW := pyStr "N"
  GENINDEX := pyStr "N"
  GENSYN := pyStr "N"
  GENALIAS := pyStr "N"
  GENUDT := pyStr "N"
  GENUDF := pyStr "N"
  GENSTP := pyStr "N"
  GENSEQ := pyStr "N"
  GENVAR := pyStr "N"
  GENLABEL := pyStr "N"
  GENCOMM := pyStr "N"
  GENRELS := pyStr "N"
  GENTRIG := pyStr "N"
  GENTRUST := pyStr "N"
  GENROLE := pyStr "N"
  GENMASK := pyStr "N"
  GENPERM := pyStr "N"
  GENSEQAL := pyStr "N"
  GRANTSG := pyStr "N"
  GRANTDB := pyStr "N"
  GRANTTS := pyStr "N"
  GRANTTAB := pyStr "N"
  GRANTVW := pyStr "N"
  GRANTSCH := pyStr "N"
  GRANTUDT := pyStr "N"
  GRANTUDF := pyStr "N"
  GRANTSTP := pyStr "N"
  GRANTSEQ := pyStr "N"
  GRANTVAR := pyStr "N"
  ACCEPT_FL := cfg.ACCEPT_FL
  ACTVCNTL := pyStr "N"
  CATALOGSTATISTICS := pyStr "N"
  TCATQUAL := []
  TGTFL := cfg.ACCEPT_FL
  SYSCOLDIST := pyStr "Y"
  SYSCOLDISTSTATS := pyStr "Y"
  SYSCOLSTATS := pyStr "Y"
  SYSCOLUMNS := pyStr "Y"
  SYSINDEX := pyStr "Y"
  SYSIXPART := pyStr "Y"
  SYSIXSTATS := pyStr "Y"
  SYSLOBSTATS := pyStr "Y"
  SYSTBPART := pyStr "Y"
  SYSTABLES := pyStr "Y"
  SYSTABLESPACE := pyStr "Y"
  SYSIXPSTATS := pyStr "Y"
  SYSTSPSTATS := pyStr "Y"
  SYSROUTINES := pyStr "Y"
  SYSKEYTGTDIST := pyStr "Y"
  SYSKEYTGTDISTSTATS := pyStr "Y"
  SYSKEYTARGETSTATS := pyStr "Y"
  NEWSQLID := []
  NEWGRANTOR := []
  NEWDB := []
  NEWTSSG := []
  NEWIXSG := []
  PENDCHGS := pyStr "Y"
  SPCALLOC := pyStr "DEFINED"
  TGTDB2 := db2relConfig cfg
  DEFAULTS := pyStr "K"
  COMMITFR := pyStr "A"
  RUNSQLID := []
  SQLCMTS := pyStr "N"
  SQL_OUTFLAG := pyStr "RS"
  SQL_DSNAME := []
  SQL_MEMBER := []
  SQL_UNIT := []
  SQL_VOLSER := []
  sql_output_list := []
  RPT_OUTFLAG := pyStr "BO"
  RPT_DSNAME := cfg.TSO_USER_ID ++ pyStr ".REPORT.TEMP"
  RPT_MEMBER := []
  RPT_UNIT := []
  RPT_VOLSER := []
  rpt_output_list := []
  DEBUG_MODE := false
  parameter_list := []
  request_list := []
  ddl_as_array := []
  ddl_as_string := []
  executed_at_least_once := false
  saved_report := []

/-- `__add_object`: append one `TYPE=…,QUAL=…,NAME=…;` entry to
`request_list`. -/
def Adb2re.addObject (s : Adb2re) (type qual name : PyString) : Adb2re :=
  { s with request_list := s.request_list ++ pyStr "TYPE='" ++ type ++
      pyStr "',QUAL='" ++ qual ++ pyStr "',NAME='" ++ name ++ pyStr "';" }

/-- `add_table`: append a table object to the `request_list`. -/
def Adb2re.add_table (s : Adb2re) (qual name : PyString) : Adb2re :=
  s.addObject (pyStr "TB") qual name

/-- `add_view`: append a view object to the `request_list`. -/
def Adb2re.add_view (s : Adb2re) (qual name : PyString) : Adb2re :=
  s.addObject (pyStr "VW") qual name

/-- One conditional clause of the parameter/output list builders: append
`frag` exactly when the option differs from its default. -/
def delta (p : PyString) (differs : Prop) [Decidable differs]
    (frag : PyString) : PyString :=
  if differs then p ++ frag else p

/-- `__build_parameter_list`: the two required fields, then one `NAME='v'`
clause per option whose current value differs from the value the source
compares it against (note: the source compares `SQLCMTS` against `''`,
not against its default `'N'`), comma-joined, `';'`-terminated. -/
def buildParameterList (cfg : Config) (s : Adb2re) : PyString :=
  let p := pyStr "DB2SYS='" ++ s.DB2SYS ++ pyStr "',DB2REL='" ++ s.DB2REL ++ pyStr "'"
  let p := delta p (s.DB2ALOC ≠ []) (pyStr ",DB2ALOC='" ++ s.DB2ALOC ++ pyStr "'")
  let p := delta p (s.DB2SERV ≠ cfg.LPAR ++ cfg.DB2_SUBSYSTEM_ID)
    (pyStr ",DB2SERV='" ++ s.DB2SERV ++ pyStr "'")
  let p := delta p (s.DB2AUTH ≠ cfg.TSO_USER_ID) (pyStr ",DB2AUTH='" ++ s.DB2AUTH ++ pyStr "'")
  let p := delta p (s.GENSG ≠ pyStr "N") (pyStr ",GENSG='" ++ s.GENSG ++ pyStr "'")
  let p := delta p (s.GENDB ≠ pyStr "N") (pyStr ",GENDB='" ++ s.GENDB ++ pyStr "'")
  let p := delta p (s.GENTS ≠ pyStr "N") (pyStr ",GENTS='" ++ s.GENTS ++ pyStr "'")
  let p := delta p (s.GENTABLE ≠ pyStr "N") (pyStr ",GENTABLE='" ++ s.GENTABLE ++ pyStr "'")
  let p := delta p (s.GENVIEW ≠ pyStr "N") (pyStr ",GENVIEW='" ++ s.GENVIEW ++ pyStr "'")
  let p := delta p (s.GENINDEX ≠ pyStr "N") (pyStr ",GENINDEX='" ++ s.GENINDEX ++ pyStr "'")
  let p := delta p (s.GENSYN ≠ pyStr "N") (pyStr ",GENSYN='" ++ s.GENSYN ++ pyStr "'")
  let p := delta p (s.GENALIAS ≠ pyStr "N") (pyStr ",GENALIAS='" ++ s.GENALIAS ++ pyStr "'")
  let p := delta p (s.GENUDT ≠ pyStr "N") (pyStr ",GENUDT='" ++ s.GENUDT ++ pyStr "'")
  let p := delta p (s.GENUDF ≠ pyStr "N") (pyStr ",GENUDF='" ++ s.GENUDF ++ pyStr "'")
  let p := delta p (s.GENSTP ≠ pyStr "N") (pyStr ",GENSTP='" ++ s.GENSTP ++ pyStr "'")
  let p := delta p (s.GENSEQ ≠ pyStr "N") (pyStr ",GENSEQ='" ++ s.GENSEQ ++ pyStr "'")
  let p := delta p (s.GENVAR ≠ pyStr "N") (pyStr ",GENVAR='" ++ s.GENVAR ++ pyStr "'")
  let p := delta p (s.GENLABEL ≠ pyStr "N") (pyStr ",GENLABEL='" ++ s.GENLABEL ++ pyStr "'")
  let p := delta p (s.GENCOMM ≠ pyStr "N") (pyStr ",GENCOMM='" ++ s.GENCOMM ++ pyStr "'")
  let p := delta p (s.GENRELS ≠ pyStr "N") (pyStr ",GENRELS='" ++ s.GENRELS ++ pyStr "'")
  let p := delta p (s.GENTRIG ≠ pyStr "N") (pyStr ",GENTRIG='" ++ s.GENTRIG ++ pyStr "'")
  let p := delta p (s.GENTRUST ≠ pyStr "N") (pyStr ",GENTRUST='" ++ s.GENTRUST ++ pyStr "'")
  let p := delta p (s.GENROLE ≠ pyStr "N") (pyStr ",GENROLE='" ++ s.GENROLE ++ pyStr "'")
  let p := delta p (s.GENMASK ≠ pyStr "N") (pyStr ",GENMASK='" ++ s.GENMASK ++ pyStr "'")
  let p := delta p (s.GENPERM ≠ pyStr "N") (pyStr ",GENPERM='" ++ s.GENPERM ++ pyStr "'")
  let p := delta p (s.GENSEQAL ≠ pyStr "N") (pyStr ",GENSEQAL='" ++ s.GENSEQAL ++ pyStr "'")
  let p := delta p (s.GRANTSG ≠ pyStr "N") (pyStr ",GRANTSG='" ++ s.GRANTSG ++ pyStr "'")
  let p := delta p (s.GRANTDB ≠ pyStr "N") (pyStr ",GRANTDB='" ++ s.GRANTDB ++ pyStr "'")
  let p := delta p (s.GRANTTS ≠ pyStr "N") (pyStr ",GRANTTS='" ++ s.GRANTTS ++ pyStr "'")
  let p := delta p (s.GRANTTAB ≠ pyStr "N") (pyStr ",GRANTTAB='" ++ s.GRANTTAB ++ pyStr "'")
  let p := delta p (s.GRANTVW ≠ pyStr "N") (pyStr ",GRANTVW='" ++ s.GRANTVW ++ pyStr "'")
  let p := delta p (s.GRANTSCH ≠ pyStr "N") (pyStr ",GRANTSCH='" ++ s.GRANTSCH ++ pyStr "'")
  let p := delta p (s.GRANTUDT ≠ pyStr "N") (pyStr ",GRANTUDT='" ++ s.GRANTUDT ++ pyStr "'")
  let p := delta p (s.GRANTUDF ≠ pyStr "N") (pyStr ",GRANTUDF='" ++ s.GRANTUDF ++ pyStr "'")
  let p := delta p (s.GRANTSTP ≠ pyStr "N") (pyStr ",GRANTSTP='" ++ s.GRANTSTP ++ pyStr "'")
  let p := delta p (s.GRANTSEQ ≠ pyStr "N") (pyStr ",GRANTSEQ='" ++ s.GRANTSEQ ++ pyStr "'")
  let p := delta p (s.GRANTVAR ≠ pyStr "N") (pyStr ",GRANTVAR='" ++ s.GRANTVAR ++ pyStr "'")
  let p := delta p (s.ACCEPT_FL ≠ cfg.ACCEPT_FL) (pyStr ",ACCEPT_FL='" ++ s.ACCEPT_FL ++ pyStr "'")
  let p := delta p (s.ACTVCNTL ≠ pyStr "N") (pyStr ",ACTVCNTL='" ++ s.ACTVCNTL ++ pyStr "'")
  let p := delta p (s.CATALOGSTATISTICS ≠ pyStr "N")
    (pyStr ",CATALOGSTATISTICS='" ++ s.CATALOGSTATISTICS ++ pyStr "'")
  let p := delta p (s.TCATQUAL ≠ []) (pyStr ",TCATQUAL='" ++ s.TCATQUAL ++ pyStr "'")
  let p := delta p (s.TGTFL ≠ cfg.ACCEPT_FL) (pyStr ",TGTFL='" ++ s.TGTFL ++ pyStr "'")
  let p := delta p (s.SYSCOLDIST ≠ pyStr "Y")
    (pyStr ",GENSTATS.SYSCOLDIST='" ++ s.SYSCOLDIST ++ pyStr "'")
  let p := delta p (s.SYSCOLDISTSTATS ≠ pyStr "Y")
    (pyStr ",GENSTATS.SYSCOLDISTSTATS='" ++ s.SYSCOLDISTSTATS ++ pyStr "'")
  let p := delta p (s.SYSCOLSTATS ≠ pyStr "Y")
    (pyStr ",GENSTATS.SYSCOLSTATS='" ++ s.SYSCOLSTATS ++ pyStr "'")
  let p := delta p (s.SYSCOLUMNS ≠ pyStr "Y")
    (pyStr ",GENSTATS.SYSCOLUMNS='" ++ s.SYSCOLUMNS ++ pyStr "'")
  let p := delta p (s.SYSINDEX ≠ pyStr "Y")
    (pyStr ",GENSTATS.SYSINDEXES='" ++ s.SYSINDEX ++ pyStr "'")
  let p := delta p (s.SYSIXPART ≠ pyStr "Y")
    (pyStr ",GENSTATS.SYSINDEXPART='" ++ s.SYSIXPART ++ pyStr "'")
  let p := delta p (s.SYSIXSTATS ≠ pyStr "Y")
    (pyStr ",GENSTATS.SYSINDEXSTATS='" ++ s.SYSIXSTATS ++ pyStr "'")
  let p := delta p (s.SYSLOBSTATS ≠ pyStr "Y")
    (pyStr ",GENSTATS.SYSLOBSTATS='" ++ s.SYSLOBSTATS ++ pyStr "'")
  let p := delta p (s.SYSTBPART ≠ pyStr "Y")
    (pyStr ",GENSTATS.SYSTABLEPART='" ++ s.SYSTBPART ++ pyStr "'")
  let p := delta p (s.SYSTABLES ≠ pyStr "Y")
    (pyStr ",GENSTATS.SYSTABLES='" ++ s.SYSTABLES ++ pyStr "'")
  let p := delta p (s.SYSTABLESPACE ≠ pyStr "Y")
    (pyStr ",GENSTATS.SYSTABLESPACE='" ++ s.SYSTABLESPACE ++ pyStr "'")
  let p := delta p (s.SYSIXPSTATS ≠ pyStr "Y")
    (pyStr ",GENSTATS.SYSINDEXSPACESTATS='" ++ s.SYSIXPSTATS ++ pyStr "'")
  let p := delta p (s.SYSTSPSTATS ≠ pyStr "Y")
    (pyStr ",GENSTATS.SYSTABLESPACESTATS='" ++ s.SYSTSPSTATS ++ pyStr "'")
  let p := delta p (s.SYSKEYTGTDISTSTATS ≠ pyStr "Y")
    (pyStr ",GENSTATS.SYSKEYTGTDISTSTATS='" ++ s.SYSKEYTGTDISTSTATS ++ pyStr "'")
  let p := delta p (s.SYSKEYTARGETSTATS ≠ pyStr "Y")
    (pyStr ",GENSTATS.SYSKEYTARGETSTATS='" ++ s.SYSKEYTARGETSTATS ++ pyStr "'")
  let p := delta p (s.SYSKEYTGTDIST ≠ pyStr "Y")
    (pyStr ",GENSTATS.SYSKEYTGTDIST='" ++ s.SYSKEYTGTDIST ++ pyStr "'")
  let p := delta p (s.SYSROUTINES ≠ pyStr "Y")
    (pyStr ",GENSTATS.SYSROUTINES='" ++ s.SYSROUTINES ++ pyStr "'")
  let p := delta p (s.NEWGRANTOR ≠ []) (pyStr ",NEWGRANTOR='" ++ s.NEWGRANTOR ++ pyStr "'")
  let p := delta p (s.NEWDB ≠ []) (pyStr ",NEWDB='" ++ s.NEWDB ++ pyStr "'")
  let p := delta p (s.NEWTSSG ≠ []) (pyStr ",NEWTSSG='" ++ s.NEWTSSG ++ pyStr "'")
  let p := delta p (s.NEWIXSG ≠ []) (pyStr ",NEWIXSG='" ++ s.NEWIXSG ++ pyStr "'")
  let p := delta p (s.NEWSQLID ≠ []) (pyStr ",NEWSQLID='" ++ s.NEWSQLID ++ pyStr "'")
  let p := delta p (s.PENDCHGS ≠ pyStr "Y") (pyStr ",PENDCHGS='" ++ s.PENDCHGS ++ pyStr "'")
  let p := delta p (s.SPCALLOC ≠ pyStr "DEFINED") (pyStr ",SPCALLOC='" ++ s.SPCALLOC ++ pyStr "'")
  let p := delta p (s.TGTDB2 ≠ db2relConfig cfg) (pyStr ",TGTDB2='" ++ s.TGTDB2 ++ pyStr "'")
  let p := delta p (s.DEFAULTS ≠ pyStr "K") (pyStr ",DEFAULTS='" ++ s.DEFAULTS ++ pyStr "'")
  let p := delta p (s.COMMITFR ≠ pyStr "A") (pyStr ",COMMITFR='" ++ s.COMMITFR ++ pyStr "'")
  let p := delta p (s.RUNSQLID ≠ []) (pyStr ",RUNSQLID='" ++ s.RUNSQLID ++ pyStr "'")
  let p := delta p (s.SQLCMTS ≠ []) (pyStr ",SQLCMTS='" ++ s.SQLCMTS ++ pyStr "'")
  p ++ pyStr ";"

/-- `__build_output_lists`, first half: the `sql_output_list`. -/
def buildSqlOutputList (s : Adb2re) : PyString :=
  let p := pyStr "SQL_OUTFLAG='" ++ s.SQL_OUTFLAG ++ pyStr "'"
  let p := delta p (s.SQL_DSNAME ≠ []) (pyStr ",SQL_DSNAME='" ++ s.SQL_DSNAME ++ pyStr "'")
  let p := delta p (s.SQL_MEMBER ≠ []) (pyStr ",SQL_MEMBER='" ++ s.SQL_MEMBER ++ pyStr "'")
  let p := delta p (s.SQL_UNIT ≠ []) (pyStr ",SQL_UNIT='" ++ s.SQL_UNIT ++ pyStr "'")
  let p := delta p (s.SQL_VOLSER ≠ []) (pyStr ",SQL_VOLSER='" ++ s.SQL_VOLSER ++ pyStr "'")
  p ++ pyStr ";"

/-- `__build_output_lists`, second half: the `rpt_output_list`
(`RPT_DSNAME` is always emitted). -/
def buildRptOutputList (s : Adb2re) : PyString :=
  let p := pyStr "RPT_OUTFLAG='" ++ s.RPT_OUTFLAG ++ pyStr "'"
  let p := p ++ pyStr ",RPT_DSNAME='" ++ s.RPT_DSNAME ++ pyStr "'"
  let p := delta p (s.RPT_MEMBER ≠ []) (pyStr ",RPT_MEMBER='" ++ s.RPT_MEMBER ++ pyStr "'")
  let p := delta p (s.RPT_UNIT ≠ []) (pyStr ",RPT_UNIT='" ++ s.RPT_UNIT ++ pyStr "'")
  let p := delta p (s.RPT_VOLSER ≠ []) (pyStr ",RPT_VOLSER='" ++ s.RPT_VOLSER ++ pyStr "'")
  p ++ pyStr ";"

/-- The loop body of `assert_text_in_report`: walk the lines in order; the
first line absent from (when `positive`) or present in (when `¬positive`)
the report raises. -/
def reportScan (report : PyString) : List PyString → Bool → Except PyErr Unit
  | [], _ => .ok ()
  | line :: rest, positive =>
    if positive && !occursIn line report then
      .error (.reportAssertion line report positive)
    else if !positive && occursIn line report then
      .error (.reportAssertion line report positive)
    else reportScan report rest positive

/-- `assert_text_in_report(text, positive_test)`. -/
def Adb2re.assert_text_in_report (s : Adb2re) (text : List PyString)
    (positive : Bool) : Except PyErr Unit :=
  if s.RPT_DSNAME = [] then .error .configurationNoReportDest
  else reportScan s.saved_report text positive

/-- `assert_text_not_in_report(text)`. -/
def Adb2re.assert_text_not_in_report (s : Adb2re) (text : List PyString) :
    Except PyErr Unit :=
  s.assert_text_in_report text false

/-- The item loop of `assert_text_between_terminators` after the row's first
item was found in the statement: scan the remaining items; `count` is the
1-based position (within the whole row) of the head of `items`.  Returns the
position and value of the first absent item, or `none` when all occur. -/
def scanItems (stmt : PyString) : List PyString → Nat → Option (Nat × PyString)
  | [], _ => none
  | item :: rest, count =>
    if occursIn item stmt then scanItems stmt rest (count + 1)
    else some (count, item)

/-- One statement's worth of the row loop: `.ok false` when the row's first
item is absent (this statement is not the candidate; move on), `.ok true`
when the first item and all remaining items occur, and an error when the
first item occurs but a later item does not. -/
def checkStmt (ddl : PyString) (sublist : List PyString) (stmt : PyString) :
    Except PyErr Bool :=
  match sublist with
  | [] => .ok false
  | first :: rest =>
    if occursIn first stmt then
      match scanItems stmt rest 2 with
      | none => .ok true
      | some (count, item) =>
        .error (.checklistItemMismatch sublist count item stmt ddl)
    else .ok false

/-- The statement loop for one checklist row: each statement gets the
terminator re-appended (`stmt += term`), the first statement containing the
row's first item decides the row, and exhausting all statements without an
anchor raises the whole-row mismatch. -/
def scanStmts (ddl : PyString) (sublist : List PyString) (term : Char) :
    List PyString → Except PyErr Unit
  | [] => .error (.checklistRowUnmatched sublist)
  | st :: rest =>
    match checkStmt ddl sublist (st ++ [term]) with
    | .error e => .error e
    | .ok true => .ok ()
    | .ok false => scanStmts ddl sublist term rest

/-- The outer row loop of `assert_text_between_terminators`: rows are checked
in order; the first failing row's error propagates. -/
def checkRows (ddl : PyString) (stmts : List PyString) (term : Char) :
    List (List PyString) → Except PyErr Unit
  | [] => .ok ()
  | row :: rows =>
    match scanStmts ddl row term stmts with
    | .error e => .error e
    | .ok _ => checkRows ddl stmts term rows

/-- `assert_text_between_terminators(checklist, term)` on the DDL string:
fail with a `FormatError` when the terminator is absent, else split and run
the checklist. -/
def atbtCore (ddl : PyString) (checklist : List (List PyString))
    (term : Char) : Except PyErr Unit :=
  if term ∈ ddl then checkRows ddl (splitCh term ddl) term checklist
  else .error (.formatError term ddl)

/-- `assert_text_between_terminators` as an instance method: it first
re-checks that `execute` has run. -/
def Adb2re.assert_text_between_terminators (s : Adb2re)
    (checklist : List (List PyString)) (term : Char) : Except PyErr Unit :=
  if s.executed_at_least_once = false then .error .notExecuted
  else atbtCore s.ddl_as_string checklist term

/-- `get_ddl_as_array`. -/
def Adb2re.get_ddl_as_array (s : Adb2re) : Except PyErr (List PyString) :=
  if s.executed_at_least_once = false then .error .notExecuted
  else .ok s.ddl_as_array

/-- `get_ddl_as_string`. -/
def Adb2re.get_ddl_as_string (s : Adb2re) : Except PyErr PyString :=
  if s.executed_at_least_once = false then .error .notExecuted
  else .ok s.ddl_as_string

/-- `get_report_as_string`. -/
def Adb2re.get_report_as_string (s : Adb2re) : Except PyErr PyString :=
  if s.executed_at_least_once = false then .error .notExecuted
  else .ok s.saved_report

/-- What the external world supplies during one `execute` call: the rows the
stored procedure's cursor yields (only column 1, `row[1]`, is read — rows are
modelled as (column 0, column 1) pairs) and the content of the report data
set read through z/OSMF. -/
structure ExternalWorld where
  rows : List (PyString × PyString)
  reportContent : PyString
  deriving DecidableEq

/-- The two automatic report validations `execute` runs on the state that
already holds the freshly read report: the success banner must be present
and the `-805` SQLCODE strings absent; on failure the error is paired with
that (already mutated) state. -/
def reportChecks (s4 : Adb2re) : Except (PyErr × Adb2re) Adb2re :=
  match s4.assert_text_in_report [pyStr "ADB2GEN - Create DDL from catalog info"] true with
  | .error e => .error (e, s4)
  | .ok _ =>
    match s4.assert_text_in_report [pyStr "SQLCODE=-805", pyStr "SQLCODE = -805"] false with
    | .error e => .error (e, s4)
    | .ok _ => .ok s4

/-- The report branch of `execute`: when a report destination is configured,
store the freshly read report and run the two automatic validations. -/
def reportPhase (s : Adb2re) (ext : ExternalWorld) :
    Except (PyErr × Adb2re) Adb2re :=
  if s.RPT_DSNAME = [] then .ok s
  else reportChecks { s with saved_report := ext.reportContent }

/-- The tail of `execute` after the report branch: on success overwrite the
DDL result fields from the fetched rows (column 1 of each row; the combined
string appends a newline after every line) and set the executed flag; an
error propagates with its mutated state. -/
def finishExecute (ext : ExternalWorld) (r : Except (PyErr × Adb2re) Adb2re) :
    Except (PyErr × Adb2re) Adb2re :=
  match r with
  | .error es => .error es
  | .ok s5 =>
    .ok { s5 with
            ddl_as_array := ext.rows.map (fun row => row.2),
            ddl_as_string := (ext.rows.map (fun row => row.2)).foldl
              (fun acc row => acc ++ row ++ ['\n']) [],
            executed_at_least_once := true }

/-- `execute(ssid)`: reject an empty `request_list`; update `PORT`, `DB2SYS`,
`DB2ALOC`, `DB2SERV`; build the parameter and output lists; perform the
external call (abstracted by `ext`); validate the report when configured;
then overwrite the DDL result fields from the fetched rows (column 1 of each
row, each line followed by a newline) and set the executed flag. -/
def execute (cfg : Config) (s : Adb2re) (ssid : PyString)
    (ext : ExternalWorld) : Except (PyErr × Adb2re) Adb2re :=
  if s.request_list.length < 1 then
    .error (.configurationEmptyRequestList, s)
  else
    let s1 := { s with PORT := cfg.portOf ssid, DB2SYS := ssid,
                       DB2ALOC := [], DB2SERV := cfg.LPAR ++ ssid }
    let s2 := { s1 with parameter_list := buildParameterList cfg s1 }
    let s3 := { s2 with sql_output_list := buildSqlOutputList s2,
                        rpt_output_list := buildRptOutputList s2 }
    finishExecute ext (reportPhase s3 ext)

instance {ε α : Type _} [DecidableEq ε] [DecidableEq α] : DecidableEq (Except ε α) := fun x y =>
  match x, y with
  | .error a, .error b =>
    if h : a = b then isTrue (by rw [h]) else isFalse fun hc => h (by injection hc)
  | .error _, .ok _ => isFalse fun hc => Except.noConfusion hc
  | .ok _, .error _ => isFalse fun hc => Except.noConfusion hc
  | .ok a, .ok b =>
    if h : a = b then isTrue (by rw [h]) else isFalse fun hc => h (by injection hc)

/-- The spec's phrase "lines joined with the newline character"
(Python's `"\n".join(lines)`), stated from the spec's words so it can be
compared with what the code actually builds. -/
def joinNL : List PyString → PyString
  | [] => []
  | [l] => l
  | l :: ls => l ++ '\n' :: joinNL ls

/-- The fixed-format `request_list` entry appended by `add_table`. -/
def tableEntry (qual name : PyString) : PyString :=
  pyStr "TYPE='" ++ pyStr "TB" ++ pyStr "',QUAL='" ++ qual ++
    pyStr "',NAME='" ++ name ++ pyStr "';"

/-- `tableEntry` without its terminating semicolon. -/
def tableBody (qual name : PyString) : PyString :=
  pyStr "TYPE='" ++ pyStr "TB" ++ pyStr "',QUAL='" ++ qual ++
    pyStr "',NAME='" ++ name ++ pyStr "'"

/-- A concrete configuration used to instantiate witnesses. -/
def sampleConfig : Config where
  DB2_VERSION := pyStr "12"
  LPAR := pyStr "LPR1"
  DB2_SUBSYSTEM_ID := pyStr "DSN1"
  TSO_USER_ID := pyStr "USR1"
  ACCEPT_FL := pyStr "V12R1M500"
  PASSWORD := pyStr "PW"
  TARGET := pyStr "HOST"
  portOf := fun _ => pyStr "5446"

/-- A fresh instance with one table request added, ready to execute. -/
def readyState : Adb2re := (freshState sampleConfig).add_table (pyStr "Q") (pyStr "T1")

/-- An external world whose report contains the expected success banner. -/
def okExt : ExternalWorld where
  rows := [(pyStr "0", pyStr "X")]
  reportContent := pyStr "ADB2GEN - Create DDL from catalog info OK"

/-- An external world whose report lacks the success banner, making the
automatic report validation fail. -/
def badExt : ExternalWorld where
  rows := [(pyStr "0", pyStr "X")]
  reportContent := pyStr "bad report"

/-- An instance in the executed state holding the given DDL string. -/
def mkExecuted (ddl : PyString) : Adb2re :=
  { freshState sampleConfig with ddl_as_string := ddl, executed_at_least_once := true }

/-- The DDL used by the spec's worked checklist example. -/
def exampleDdl : PyString := pyStr "CREATE TABLE A COL1;CREATE TABLE B COL2;"

/-- The state produced by a successful `execute` on `readyState` with
`okExt`, written out field by field. -/
def c7ResultState : Adb2re :=
  { readyState with
      PORT := pyStr "5446", DB2SYS := pyStr "DSN1", DB2ALOC := [],
      DB2SERV := pyStr "LPR1DSN1",
      parameter_list := pyStr "DB2SYS='DSN1',DB2REL='1215',SQLCMTS='N';",
      sql_output_list := pyStr "SQL_OUTFLAG='RS';",
      rpt_output_list := pyStr "RPT_OUTFLAG='BO',RPT_DSNAME='USR1.REPORT.TEMP';",
      saved_report := pyStr "ADB2GEN - Create DDL from catalog info OK",
      ddl_as_array := [pyStr "X"],
      ddl_as_string := pyStr "X\n",
      executed_at_least_once := true }

/-- The mutated state left behind when `execute` on `readyState` with
`badExt` fails its automatic report validation. -/
def c10BadState : Adb2re :=
  { readyState with
      PORT := pyStr "5446", DB2SYS := pyStr "DSN1", DB2ALOC := [],
      DB2SERV := pyStr "LPR1DSN1",
      parameter_list := pyStr "DB2SYS='DSN1',DB2REL='1215',SQLCMTS='N';",
      sql_output_list := pyStr "SQL_OUTFLAG='RS';",
      rpt_output_list := pyStr "RPT_OUTFLAG='BO',RPT_DSNAME='USR1.REPORT.TEMP';",
      saved_report := pyStr "bad report" }

/-- A state with a report destination configured and a stored report,
used to instantiate the report-assertion witnesses. -/
def reportState : Adb2re := { freshState sampleConfig with saved_report := pyStr "Job OK" }

lemma splitCh_ne_nil (c : Char) (s : PyString) : splitCh c s ≠ [] := by
  cases s with
  | nil => simp [splitCh]
  | cons a as => by_cases h : a = c <;> simp [splitCh, h]

lemma splitCh_sep_free (c : Char) (xs rest : PyString) (h : c ∉ xs) :
    splitCh c (xs ++ c :: rest) = xs :: splitCh c rest := by
  induction xs with
  | nil => simp [splitCh]
  | cons a as ih =>
    have ha : a ≠ c := fun hac => h (hac ▸ List.mem_cons_self a as)
    have h' : c ∉ as := fun hc => h (List.mem_cons_of_mem _ hc)
    simp [splitCh, ih h', ha]

lemma foldl_append_sep (c : Char) (ls : List PyString) (acc : PyString) :
    ls.foldl (fun a l => a ++ l ++ [c]) acc = acc ++ (ls.map (fun l => l ++ [c])).flatten := by
  induction ls generalizing acc with
  | nil => simp
  | cons l ls ih =>
    simp only [List.foldl_cons, List.map_cons, List.flatten_cons]
    rw [ih]
    simp [List.append_assoc]

lemma splitCh_flatten_sep (c : Char) (ls : List PyString) (h : ∀ l ∈ ls, c ∉ l) :
    splitCh c ((ls.map (fun l => l ++ [c])).flatten) = ls ++ [[]] := by
  induction ls with
  | nil => simp [splitCh]
  | cons l ls ih =>
    have h1 : c ∉ l := h l (List.mem_cons_self _ _)
    have h2 : ∀ x ∈ ls, c ∉ x := fun x hx => h x (List.mem_cons_of_mem _ hx)
    have hj : (((l :: ls).map (fun x => x ++ [c])).flatten) =
        l ++ c :: ((ls.map (fun x => x ++ [c])).flatten) := by
      simp [List.append_assoc]
    rw [hj, splitCh_sep_free c l _ h1, ih h2]
    simp

lemma scanItems_all (stmt : PyString) (items : List PyString) (count : Nat)
    (h : ∀ it ∈ items, occursIn it stmt = true) : scanItems stmt items count = none := by
  induction items generalizing count with
  | nil => rfl
  | cons it rest ih =>
    have h1 := h it (List.mem_cons_self _ _)
    simp only [scanItems, h1, if_true]
    exact ih _ fun x hx => h x (List.mem_cons_of_mem _ hx)

lemma scanItems_first_missing (stmt : PyString) (r₁ : List PyString) (item : PyString)
    (r₂ : List PyString) (count : Nat)
    (h1 : ∀ x ∈ r₁, occursIn x stmt = true) (h2 : occursIn item stmt = false) :
    scanItems stmt (r₁ ++ item :: r₂) count = some (count + r₁.length, item) := by
  induction r₁ generalizing count with
  | nil => simp [scanItems, h2]
  | cons x r₁ ih =>
    have hx := h1 x (List.mem_cons_self _ _)
    simp only [List.cons_append, scanItems, hx, if_true, List.append_eq]
    rw [ih _ (fun y hy => h1 y (List.mem_cons_of_mem _ hy))]
    simp only [List.length_cons, Option.some.injEq, Prod.mk.injEq]
    exact ⟨by omega, trivial⟩

lemma checkStmt_no_anchor (ddl : PyString) (first : PyString) (rest : List PyString)
    (stmt : PyString) (h : occursIn first stmt = false) :
    checkStmt ddl (first :: rest) stmt = .ok false := by
  simp [checkStmt, h]

lemma checkStmt_all_found (ddl : PyString) (first : PyString) (rest : List PyString)
    (stmt : PyString) (h : occursIn first stmt = true)
    (hrest : ∀ it ∈ rest, occursIn it stmt = true) :
    checkStmt ddl (first :: rest) stmt = .ok true := by
  simp [checkStmt, h, scanItems_all stmt rest 2 hrest]

lemma checkStmt_missing_item (ddl : PyString) (first : PyString)
    (r₁ : List PyString) (item : PyString) (r₂ : List PyString) (stmt : PyString)
    (h : occursIn first stmt = true)
    (h1 : ∀ x ∈ r₁, occursIn x stmt = true) (h2 : occursIn item stmt = false) :
    checkStmt ddl (first :: (r₁ ++ item :: r₂)) stmt =
      .error (.checklistItemMismatch (first :: (r₁ ++ item :: r₂)) (r₁.length + 2)
        item stmt ddl) := by
  have hsc := scanItems_first_missing stmt r₁ item r₂ 2 h1 h2
  simp [checkStmt, h, hsc]
  omega

lemma scanStmts_skip (ddl : PyString) (row : List PyString) (term : Char)
    (pre rest : List PyString)
    (h : ∀ p ∈ pre, checkStmt ddl row (p ++ [term]) = .ok false) :
    scanStmts ddl row term (pre ++ rest) = scanStmts ddl row term rest := by
  induction pre with
  | nil => rfl
  | cons p pre ih =>
    have hp := h p (List.mem_cons_self _ _)
    simp only [List.cons_append, scanStmts, hp]
    exact ih fun q hq => h q (List.mem_cons_of_mem _ hq)

lemma scanStmts_no_anchor (ddl : PyString) (row : List PyString) (term : Char)
    (stmts : List PyString)
    (h : ∀ st ∈ stmts, ∀ first rest, row = first :: rest →
      occursIn first (st ++ [term]) = false) :
    scanStmts ddl row term stmts = .error (.checklistRowUnmatched row) := by
  induction stmts with
  | nil => rfl
  | cons st stmts ih =>
    have hst : checkStmt ddl row (st ++ [term]) = .ok false := by
      cases row with
      | nil => rfl
      | cons first rest =>
        exact checkStmt_no_anchor ddl first rest _ (h st (List.mem_cons_self _ _) first rest rfl)
    simp only [scanStmts, hst]
    exact ih fun q hq f r hk => h q (List.mem_cons_of_mem _ hq) f r hk

lemma checkRows_pass (ddl : PyString) (stmts : List PyString) (term : Char)
    (rows₁ rows₂ : List (List PyString))
    (h : ∀ r ∈ rows₁, scanStmts ddl r term stmts = .ok ()) :
    checkRows ddl stmts term (rows₁ ++ rows₂) = checkRows ddl stmts term rows₂ := by
  induction rows₁ with
  | nil => rfl
  | cons r rows₁ ih =>
    have hr := h r (List.mem_cons_self _ _)
    simp only [List.cons_append, checkRows, hr]
    exact ih fun q hq => h q (List.mem_cons_of_mem _ hq)

lemma checkRows_head_error (ddl : PyString) (stmts : List PyString) (term : Char)
    (row : List PyString) (rows : List (List PyString)) (e : PyErr)
    (h : scanStmts ddl row term stmts = .error e) :
    checkRows ddl stmts term (row :: rows) = .error e := by
  simp [checkRows, h]

lemma atbt_method_eq (s : Adb2re) (checklist : List (List PyString)) (term : Char)
    (hex : s.executed_at_least_once = true) (hterm : term ∈ s.ddl_as_string) :
    s.assert_text_between_terminators checklist term =
      checkRows s.ddl_as_string (splitCh term s.ddl_as_string) term checklist := by
  simp [Adb2re.assert_text_between_terminators, atbtCore, hex, hterm]

lemma reportScan_ok_iff (report : PyString) (lines : List PyString) (positive : Bool) :
    reportScan report lines positive = .ok () ↔
      ∀ l ∈ lines, occursIn l report = positive := by
  induction lines with
  | nil => simp [reportScan]
  | cons l rest ih =>
    cases positive <;> by_cases h : occursIn l report = true <;>
      simp_all [reportScan]

lemma reportScan_offender (report : PyString) (pre : List PyString) (line : PyString)
    (post : List PyString) (positive : Bool)
    (hpre : ∀ p ∈ pre, occursIn p report = positive)
    (hline : occursIn line report = !positive) :
    reportScan report (pre ++ line :: post) positive =
      .error (.reportAssertion line report positive) := by
  induction pre with
  | nil => cases positive <;> simp_all [reportScan]
  | cons p pre ih =>
    have hp := hpre p (List.mem_cons_self _ _)
    have : reportScan report ((p :: pre) ++ line :: post) positive =
        reportScan report (pre ++ line :: post) positive := by
      cases positive <;> simp_all [reportScan]
    rw [this]
    exact ih fun q hq => hpre q (List.mem_cons_of_mem _ hq)

lemma reportChecks_error_state (s4 : Adb2re) (e : PyErr) (s' : Adb2re)
    (h : reportChecks s4 = .error (e, s')) : s' = s4 := by
  unfold reportChecks at h
  split at h
  · simp only [Except.error.injEq, Prod.mk.injEq] at h
    exact h.2.symm
  · split at h
    · simp only [Except.error.injEq, Prod.mk.injEq] at h
      exact h.2.symm
    · simp at h

lemma reportPhase_error_state (s : Adb2re) (ext : ExternalWorld) (e : PyErr) (s' : Adb2re)
    (h : reportPhase s ext = .error (e, s')) :
    s' = { s with saved_report := ext.reportContent } := by
  unfold reportPhase at h
  split at h
  · simp at h
  · exact reportChecks_error_state _ e s' h

lemma finishExecute_error (ext : ExternalWorld) (r : Except (PyErr × Adb2re) Adb2re)
    (e : PyErr) (s' : Adb2re) (h : finishExecute ext r = .error (e, s')) :
    r = .error (e, s') := by
  cases r with
  | error es => simpa only [finishExecute] using h
  | ok s5 => simp [finishExecute] at h

lemma finishExecute_ok (ext : ExternalWorld) (r : Except (PyErr × Adb2re) Adb2re)
    (s' : Adb2re) (h : finishExecute ext r = .ok s') :
    ∃ s5, r = .ok s5 ∧
      s' = { s5 with
               ddl_as_array := ext.rows.map (fun row => row.2),
               ddl_as_string := (ext.rows.map (fun row => row.2)).foldl
                 (fun acc row => acc ++ row ++ ['\n']) [],
               executed_at_least_once := true } := by
  cases r with
  | error es => simp [finishExecute] at h
  | ok s5 =>
    refine ⟨s5, rfl, ?_⟩
    simp only [finishExecute, Except.ok.injEq] at h
    exact h.symm

lemma execute_ok_state (cfg : Config) (s : Adb2re) (ssid : PyString) (ext : ExternalWorld)
    (s' : Adb2re) (h : execute cfg s ssid ext = .ok s') :
    s'.ddl_as_array = ext.rows.map (fun r => r.2) ∧
    s'.ddl_as_string =
      (ext.rows.map (fun r => r.2)).foldl (fun acc row => acc ++ row ++ ['\n']) [] ∧
    s'.executed_at_least_once = true := by
  unfold execute at h
  split at h
  · simp at h
  · obtain ⟨s5, -, hs'⟩ := finishExecute_ok ext _ s' h
    subst hs'
    exact ⟨rfl, rfl, rfl⟩

lemma execute_report_error_state (cfg : Config) (s : Adb2re) (ssid : PyString)
    (ext : ExternalWorld) (e : PyErr) (s' : Adb2re)
    (h : execute cfg s ssid ext = .error (e, s')) (hne : e ≠ .configurationEmptyRequestList) :
    s'.ddl_as_array = s.ddl_as_array ∧ s'.ddl_as_string = s.ddl_as_string ∧
    s'.executed_at_least_once = s.executed_at_least_once := by
  unfold execute at h
  split at h
  · simp only [Except.error.injEq, Prod.mk.injEq] at h
    exact absurd h.1.symm hne
  · have hr := finishExecute_error ext _ e s' h
    have := reportPhase_error_state _ ext e s' hr
    subst this
    exact ⟨rfl, rfl, rfl⟩

lemma tableEntry_eq_body (q n : PyString) : tableEntry q n = tableBody q n ++ [';'] := by
  have h : pyStr "';" = pyStr "'" ++ [';'] := by decide
  simp [tableEntry, tableBody, h, List.append_assoc]

lemma tableBody_sep_free (q n : PyString) (hq : ';' ∉ q) (hn : ';' ∉ n) :
    ';' ∉ tableBody q n := by
  have h1 : ';' ∉ pyStr "TYPE='" := by decide
  have h2 : ';' ∉ pyStr "TB" := by decide
  have h3 : ';' ∉ pyStr "',QUAL='" := by decide
  have h4 : ';' ∉ pyStr "',NAME='" := by decide
  have h5 : ';' ∉ pyStr "'" := by decide
  simp only [tableBody, List.mem_append, not_or]
  tauto

lemma tableBody_ne_nil (q n : PyString) : tableBody q n ≠ [] := by
  have h1 : pyStr "TYPE='" ≠ [] := by decide
  simp only [tableBody, ne_eq, List.append_eq_nil, not_and]
  tauto

lemma add_table_foldl (pairs : List (PyString × PyString)) (s : Adb2re) :
    (pairs.foldl (fun st p => st.add_table p.1 p.2) s).request_list =
      s.request_list ++ (pairs.map (fun p => tableEntry p.1 p.2)).flatten := by
  induction pairs generalizing s with
  | nil => simp
  | cons p pairs ih =>
    simp only [List.foldl_cons, List.map_cons, List.flatten_cons]
    rw [ih]
    simp only [Adb2re.add_table, Adb2re.addObject, tableEntry]
    simp [List.append_assoc]

/-- Claim C1: for every executed instance whose DDL string contains the
terminator and every checklist row (reached with all earlier rows passing),
the statements obtained by splitting on the terminator (each with the
terminator re-appended) are scanned in original order; the first statement
containing the row's first item becomes the row's candidate statement, and
then either every remaining item also occurs in that same statement (the
row succeeds — the first qualifying statement wins and scanning stops for
that row, the call moving on to the remaining rows) or the call fails with
a checklist mismatch reporting the failing item's 1-based ordinal position;
in particular for DDL `CREATE TABLE A COL1;CREATE TABLE B COL2;` the
checklist `[["CREATE TABLE A","COL1"]]` passes and
`[["CREATE TABLE A","COL2"]]` fails naming item position 2. -/
theorem claim_c1_candidate_statement :
    (∀ (s : Adb2re) (term : Char) (rows₁ rows₂ : List (List PyString))
        (first : PyString) (rest : List PyString) (pre post : List PyString) (st : PyString),
      s.executed_at_least_once = true →
      term ∈ s.ddl_as_string →
      (∀ r ∈ rows₁, scanStmts s.ddl_as_string r term (splitCh term s.ddl_as_string) = .ok ()) →
      splitCh term s.ddl_as_string = pre ++ st :: post →
      (∀ p ∈ pre, occursIn first (p ++ [term]) = false) →
      occursIn first (st ++ [term]) = true →
      ((∀ it ∈ rest, occursIn it (st ++ [term]) = true) →
        scanStmts s.ddl_as_string (first :: rest) term (splitCh term s.ddl_as_string) = .ok () ∧
        s.assert_text_between_terminators (rows₁ ++ (first :: rest) :: rows₂) term =
          checkRows s.ddl_as_string (splitCh term s.ddl_as_string) term rows₂) ∧
      (∀ (r₁ : List PyString) (item : PyString) (r₂ : List PyString),
        rest = r₁ ++ item :: r₂ →
        (∀ x ∈ r₁, occursIn x (st ++ [term]) = true) →
        occursIn item (st ++ [term]) = false →
        s.assert_text_between_terminators (rows₁ ++ (first :: rest) :: rows₂) term =
          .error (.checklistItemMismatch (first :: rest) (r₁.length + 2) item
            (st ++ [term]) s.ddl_as_string))) ∧
    (∀ s : Adb2re, s.executed_at_least_once = true →
      s.ddl_as_string = pyStr "CREATE TABLE A COL1;CREATE TABLE B COL2;" →
      s.assert_text_between_terminators [[pyStr "CREATE TABLE A", pyStr "COL1"]] ';' = .ok () ∧
      s.assert_text_between_terminators [[pyStr "CREATE TABLE A", pyStr "COL2"]] ';' =
        .error (.checklistItemMismatch [pyStr "CREATE TABLE A", pyStr "COL2"] 2 (pyStr "COL2")
          (pyStr "CREATE TABLE A COL1;") s.ddl_as_string)) := by
  constructor
  · intro s term rows₁ rows₂ first rest pre post st hex hterm hrows hsplit hpre hanchor
    have hskip : ∀ row : List PyString,
        (∀ p ∈ pre, checkStmt s.ddl_as_string row (p ++ [term]) = .ok false) →
        scanStmts s.ddl_as_string row term (pre ++ st :: post) =
          scanStmts s.ddl_as_string row term (st :: post) :=
      fun row h => scanStmts_skip s.ddl_as_string row term pre (st :: post) h
    constructor
    · intro hall
      have hrow : scanStmts s.ddl_as_string (first :: rest) term
          (splitCh term s.ddl_as_string) = .ok () := by
        rw [hsplit, hskip (first :: rest)
          (fun p hp => checkStmt_no_anchor _ first rest _ (hpre p hp))]
        simp only [scanStmts, checkStmt_all_found s.ddl_as_string first rest
          (st ++ [term]) hanchor hall]
      refine ⟨hrow, ?_⟩
      rw [atbt_method_eq s _ term hex hterm,
        checkRows_pass _ _ _ rows₁ _ hrows]
      simp only [checkRows, hrow]
    · intro r₁ item r₂ hrest hr₁ hitem
      subst hrest
      have hrow : scanStmts s.ddl_as_string (first :: (r₁ ++ item :: r₂)) term
          (splitCh term s.ddl_as_string) =
          .error (.checklistItemMismatch (first :: (r₁ ++ item :: r₂)) (r₁.length + 2) item
            (st ++ [term]) s.ddl_as_string) := by
        rw [hsplit, hskip (first :: (r₁ ++ item :: r₂))
          (fun p hp => checkStmt_no_anchor _ first _ _ (hpre p hp))]
        simp only [scanStmts, checkStmt_missing_item s.ddl_as_string first r₁ item r₂
          (st ++ [term]) hanchor hr₁ hitem]
      rw [atbt_method_eq s _ term hex hterm,
        checkRows_pass _ _ _ rows₁ _ hrows]
      exact checkRows_head_error _ _ _ _ _ _ hrow
  · intro s hex hddl
    constructor
    · simp only [Adb2re.assert_text_between_terminators, hex, hddl]
      decide
    · simp only [Adb2re.assert_text_between_terminators, hex, hddl]
      decide

/-- Witness for C1: the spec's worked example evaluated on a concrete
executed instance. -/
theorem claim_c1_witness :
    (mkExecuted exampleDdl).assert_text_between_terminators
        [[pyStr "CREATE TABLE A", pyStr "COL1"]] ';' = .ok () :=
  (claim_c1_candidate_statement.2 (mkExecuted exampleDdl) rfl rfl).1

/-- Claim C3: for every executed instance whose DDL string contains the
terminator, if a checklist row's first item occurs in none of the
terminator-split statements — including the case of an empty row, which can
never find its first item — then `assert_text_between_terminators` fails
with a checklist mismatch naming that whole unmatched row. -/
theorem claim_c3_row_unmatched :
    ∀ (s : Adb2re) (term : Char) (rows₁ rows₂ : List (List PyString)) (row : List PyString),
      s.executed_at_least_once = true →
      term ∈ s.ddl_as_string →
      (∀ r ∈ rows₁, scanStmts s.ddl_as_string r term (splitCh term s.ddl_as_string) = .ok ()) →
      (∀ st ∈ splitCh term s.ddl_as_string, ∀ first rest, row = first :: rest →
        occursIn first (st ++ [term]) = false) →
      s.assert_text_between_terminators (rows₁ ++ row :: rows₂) term =
        .error (.checklistRowUnmatched row) := by
  intro s term rows₁ rows₂ row hex hterm hrows hanchor
  rw [atbt_method_eq s _ term hex hterm, checkRows_pass _ _ _ rows₁ _ hrows]
  exact checkRows_head_error _ _ _ _ _ _
    (scanStmts_no_anchor s.ddl_as_string row term _ hanchor)

/-- Witness for C3: an empty checklist row on a concrete executed instance
is reported as a whole-row mismatch. -/
theorem claim_c3_witness :
    (mkExecuted exampleDdl).assert_text_between_terminators [[]] ';' =
      .error (.checklistRowUnmatched []) :=
  claim_c3_row_unmatched (mkExecuted exampleDdl) ';' [] [] [] rfl (by decide)
    (fun r hr => absurd hr (List.not_mem_nil r))
    (fun st hst first rest h => List.noConfusion h)

/-- Claim C4: for every executed instance and every checklist, if the
terminator character never occurs in the DDL string then
`assert_text_between_terminators` fails immediately with a `FormatError`,
regardless of the checklist's content. -/
theorem claim_c4_format_error :
    ∀ (s : Adb2re) (checklist : List (List PyString)) (term : Char),
      s.executed_at_least_once = true →
      term ∉ s.ddl_as_string →
      s.assert_text_between_terminators checklist term =
        .error (.formatError term s.ddl_as_string) := by
  intro s checklist term hex hterm
  simp [Adb2re.assert_text_between_terminators, atbtCore, hex, hterm]

/-- Witness for C4: a concrete executed instance whose DDL holds no
semicolon. -/
theorem claim_c4_witness :
    (mkExecuted (pyStr "CREATE TABLE A COL1")).assert_text_between_terminators
        [[pyStr "CREATE TABLE A"]] ';' =
      .error (.formatError ';' (pyStr "CREATE TABLE A COL1")) :=
  claim_c4_format_error (mkExecuted (pyStr "CREATE TABLE A COL1"))
    [[pyStr "CREATE TABLE A"]] ';' rfl (by decide)

/-- Claim C5: on any instance on which no successful execution has yet
completed (in particular a fresh instance) each of the accessors
`get_ddl_as_array`, `get_ddl_as_string` and `get_report_as_string` fails
with a `NotExecutedError`; after the first successful execution (which sets
the executed flag) each returns its stored result — the accessors are pure
reads of the state. -/
theorem claim_c5_accessors :
    (∀ cfg : Config, (freshState cfg).executed_at_least_once = false) ∧
    (∀ s : Adb2re, s.executed_at_least_once = false →
      s.get_ddl_as_array = .error .notExecuted ∧
      s.get_ddl_as_string = .error .notExecuted ∧
      s.get_report_as_string = .error .notExecuted) ∧
    (∀ (cfg : Config) (s : Adb2re) (ssid : PyString) (ext : ExternalWorld) (s' : Adb2re),
      execute cfg s ssid ext = .ok s' → s'.executed_at_least_once = true) ∧
    (∀ s : Adb2re, s.executed_at_least_once = true →
      s.get_ddl_as_array = .ok s.ddl_as_array ∧
      s.get_ddl_as_string = .ok s.ddl_as_string ∧
      s.get_report_as_string = .ok s.saved_report) := by
  refine ⟨fun cfg => rfl, ?_, ?_, ?_⟩
  · intro s h
    refine ⟨?_, ?_, ?_⟩ <;>
      simp [Adb2re.get_ddl_as_array, Adb2re.get_ddl_as_string,
        Adb2re.get_report_as_string, h]
  · intro cfg s ssid ext s' h
    exact (execute_ok_state cfg s ssid ext s' h).2.2
  · intro s h
    refine ⟨?_, ?_, ?_⟩ <;>
      simp [Adb2re.get_ddl_as_array, Adb2re.get_ddl_as_string,
        Adb2re.get_report_as_string, h]

/-- Witness for C5: all three accessors fail on the concrete fresh
instance. -/
theorem claim_c5_witness :
    (freshState sampleConfig).get_ddl_as_array = .error .notExecuted ∧
    (freshState sampleConfig).get_ddl_as_string = .error .notExecuted ∧
    (freshState sampleConfig).get_report_as_string = .error .notExecuted :=
  claim_c5_accessors.2.1 (freshState sampleConfig) rfl

/-- Claim C6: for every instance whose request list is empty, `execute`
fails with a `ConfigurationError` before performing the external call —
the result is the same for every external world — and, the check being the
first thing `execute` does, the error carries the instance state completely
unmodified. -/
theorem claim_c6_empty_request_list :
    ∀ (cfg : Config) (s : Adb2re) (ssid : PyString) (ext : ExternalWorld),
      s.request_list = [] →
      execute cfg s ssid ext = .error (.configurationEmptyRequestList, s) := by
  intro cfg s ssid ext h
  simp [execute, h]

/-- Witness for C6: `execute` on the concrete fresh instance (whose request
list is empty) fails and returns the state unchanged. -/
theorem claim_c6_witness :
    execute sampleConfig (freshState sampleConfig) (pyStr "DSN1") okExt =
      .error (.configurationEmptyRequestList, freshState sampleConfig) :=
  claim_c6_empty_request_list sampleConfig (freshState sampleConfig) (pyStr "DSN1") okExt rfl

/-- Counterexample for C7: a concrete successful execution fetching the
single line `X` stores `ddl_as_string = "X\n"`, which is not the lines
joined with the newline character (`"X"`), and splitting it on newline
yields an extra trailing empty string rather than recovering the array. -/
theorem claim_c7_counterexample :
    (execute sampleConfig readyState (pyStr "DSN1") okExt).toOption.map
        (fun s => s.ddl_as_array) = some [pyStr "X"] ∧
    (execute sampleConfig readyState (pyStr "DSN1") okExt).toOption.map
        (fun s => s.ddl_as_string) = some (pyStr "X\n") ∧
    joinNL [pyStr "X"] = pyStr "X" ∧
    pyStr "X\n" ≠ joinNL [pyStr "X"] ∧
    splitCh '\n' (pyStr "X\n") ≠ [pyStr "X"] := by
  refine ⟨by decide, by decide, by decide, by decide, by decide⟩

/-- Claim C7 (amended): after every successful execution that fetched lines
`L1,...,Ln` (the second column of each result row, in arrival order),
`ddl_as_array` equals `[L1,...,Ln]` and `ddl_as_string` equals the
concatenation of each line followed by a newline (newline-terminated, not
newline-joined); when no line itself contains a newline, splitting
`ddl_as_string` on newline yields the array followed by one extra empty
string. -/
theorem claim_c7_amended :
    ∀ (cfg : Config) (s : Adb2re) (ssid : PyString) (ext : ExternalWorld) (s' : Adb2re),
      execute cfg s ssid ext = .ok s' →
      s'.ddl_as_array = ext.rows.map (fun r => r.2) ∧
      s'.ddl_as_string = ((ext.rows.map (fun r => r.2)).map (fun l => l ++ ['\n'])).flatten ∧
      ((∀ r ∈ ext.rows, '\n' ∉ r.2) →
        splitCh '\n' s'.ddl_as_string = ext.rows.map (fun r => r.2) ++ [[]]) := by
  intro cfg s ssid ext s' h
  obtain ⟨h1, h2, h3⟩ := execute_ok_state cfg s ssid ext s' h
  have h2' : s'.ddl_as_string =
      ((ext.rows.map (fun r => r.2)).map (fun l => l ++ ['\n'])).flatten := by
    rw [h2, foldl_append_sep]
    simp
  refine ⟨h1, h2', fun hnl => ?_⟩
  rw [h2']
  have := splitCh_flatten_sep '\n' (ext.rows.map (fun r => r.2)) (fun l hl => by
    obtain ⟨r, hr, hrl⟩ := List.mem_map.1 hl
    exact hrl ▸ hnl r hr)
  exact this

/-- Witness for C7: the amended split property evaluated on the concrete
execution. -/
theorem claim_c7_witness :
    splitCh '\n' c7ResultState.ddl_as_string = okExt.rows.map (fun r => r.2) ++ [[]] :=
  (claim_c7_amended sampleConfig readyState (pyStr "DSN1") okExt c7ResultState
    (by decide)).2.2 (by decide)


/-- Claim C8: for every list of lines and every stored report text,
`assert_text_in_report(lines, expect_present)` with `expect_present` true
requires each line to occur as a substring of the report and with
`expect_present` false forbids each line from occurring, failing with a
`ReportAssertionError` naming the first offending line; if no report
destination is configured it fails with a `ConfigurationError` instead;
`assert_text_not_in_report` is the `expect_present = false` instance. -/
theorem claim_c8_report_assertions :
    (∀ (s : Adb2re) (lines : List PyString) (positive : Bool),
      s.RPT_DSNAME = [] →
      s.assert_text_in_report lines positive = .error .configurationNoReportDest) ∧
    (∀ (s : Adb2re) (lines : List PyString) (positive : Bool),
      s.RPT_DSNAME ≠ [] →
      (s.assert_text_in_report lines positive = .ok () ↔
        ∀ l ∈ lines, occursIn l s.saved_report = positive)) ∧
    (∀ (s : Adb2re) (pre : List PyString) (line : PyString) (post : List PyString)
        (positive : Bool),
      s.RPT_DSNAME ≠ [] →
      (∀ p ∈ pre, occursIn p s.saved_report = positive) →
      occursIn line s.saved_report = !positive →
      s.assert_text_in_report (pre ++ line :: post) positive =
        .error (.reportAssertion line s.saved_report positive)) ∧
    (∀ (s : Adb2re) (lines : List PyString),
      s.assert_text_not_in_report lines = s.assert_text_in_report lines false) := by
  refine ⟨?_, ?_, ?_, fun s lines => rfl⟩
  · intro s lines positive h
    simp [Adb2re.assert_text_in_report, h]
  · intro s lines positive h
    simp [Adb2re.assert_text_in_report, h, reportScan_ok_iff]
  · intro s pre line post positive h hpre hline
    simp [Adb2re.assert_text_in_report, h,
      reportScan_offender s.saved_report pre line post positive hpre hline]

/-- Witness for C8: the spec's examples on a concrete report `Job OK`. -/
theorem claim_c8_witness :
    reportState.assert_text_in_report [pyStr "OK"] true = .ok () ∧
    reportState.assert_text_in_report [pyStr "ERROR"] true =
      .error (.reportAssertion (pyStr "ERROR") (pyStr "Job OK") true) :=
  ⟨(claim_c8_report_assertions.2.1 reportState [pyStr "OK"] true (by decide)).mpr (by decide),
   claim_c8_report_assertions.2.2.1 reportState [] (pyStr "ERROR") [] true (by decide)
     (fun p hp => absurd hp (List.not_mem_nil p)) (by decide)⟩

/-- Claim C9: for every sequence of qualifier/name pairs none containing a
semicolon, calling `add_table` once per pair starting from an empty request
list yields a request list that is exactly the concatenation, in insertion
order, of the fixed-format entries each terminated by `;`; splitting it on
`;` yields the entry bodies in insertion order (plus the empty piece after
the final terminator), hence exactly N non-empty entries. -/
theorem claim_c9_add_table_roundtrip :
    ∀ (cfg : Config) (pairs : List (PyString × PyString)),
      (∀ p ∈ pairs, ';' ∉ p.1 ∧ ';' ∉ p.2) →
      (pairs.foldl (fun st p => st.add_table p.1 p.2) (freshState cfg)).request_list =
          (pairs.map (fun p => tableEntry p.1 p.2)).flatten ∧
      splitCh ';'
          (pairs.foldl (fun st p => st.add_table p.1 p.2) (freshState cfg)).request_list =
        pairs.map (fun p => tableBody p.1 p.2) ++ [[]] ∧
      ((splitCh ';'
          (pairs.foldl (fun st p => st.add_table p.1 p.2) (freshState cfg)).request_list).filter
            (fun piece => decide (piece ≠ []))).length = pairs.length := by
  intro cfg pairs h
  have hreq := add_table_foldl pairs (freshState cfg)
  have hfresh : (freshState cfg).request_list = [] := rfl
  rw [hfresh, List.nil_append] at hreq
  have hmap : pairs.map (fun p => tableEntry p.1 p.2) =
      (pairs.map (fun p => tableBody p.1 p.2)).map (fun l => l ++ [';']) := by
    simp only [List.map_map]
    exact List.map_congr_left fun p _ => tableEntry_eq_body p.1 p.2
  have hsep : ∀ l ∈ pairs.map (fun p => tableBody p.1 p.2), ';' ∉ l := by
    intro l hl
    obtain ⟨p, hp, hpl⟩ := List.mem_map.1 hl
    exact hpl ▸ tableBody_sep_free p.1 p.2 (h p hp).1 (h p hp).2
  have hsplit : splitCh ';' ((pairs.map (fun p => tableEntry p.1 p.2)).flatten) =
      pairs.map (fun p => tableBody p.1 p.2) ++ [[]] := by
    rw [hmap]
    exact splitCh_flatten_sep ';' _ hsep
  have hbody : (pairs.map (fun p => tableBody p.1 p.2)).filter
      (fun piece => decide (piece ≠ [])) = pairs.map (fun p => tableBody p.1 p.2) := by
    rw [List.filter_eq_self]
    intro a ha
    obtain ⟨p, hp, hpa⟩ := List.mem_map.1 ha
    simp [← hpa, tableBody_ne_nil]
  refine ⟨hreq, by rw [hreq, hsplit], ?_⟩
  rw [hreq, hsplit, List.filter_append, hbody]
  simp

/-- Witness for C9: round-trip of two concrete `add_table` calls. -/
theorem claim_c9_witness :
    splitCh ';'
        (([(pyStr "Q", pyStr "T1"), (pyStr "Q2", pyStr "T2")].foldl
          (fun st p => st.add_table p.1 p.2) (freshState sampleConfig)).request_list) =
      [(pyStr "Q", pyStr "T1"), (pyStr "Q2", pyStr "T2")].map
        (fun p => tableBody p.1 p.2) ++ [[]] :=
  (claim_c9_add_table_roundtrip sampleConfig
    [(pyStr "Q", pyStr "T1"), (pyStr "Q2", pyStr "T2")] (by decide)).2.1

/-- Claim C10: if the automatic report validation inside `execute` (the
success-banner presence check or the SQLCODE=-805 absence check) raises,
then the stored DDL array, the stored DDL string and the has-executed flag
all retain the values they held before the call — the report is validated
before the DDL result variables are reset and before the flag is set — so
results from a prior successful execution remain readable through the
accessors. -/
theorem claim_c10_report_validation_preserves_results :
    ∀ (cfg : Config) (s : Adb2re) (ssid : PyString) (ext : ExternalWorld)
      (line report : PyString) (positive : Bool) (s' : Adb2re),
      execute cfg s ssid ext = .error (.reportAssertion line report positive, s') →
      s'.ddl_as_array = s.ddl_as_array ∧
      s'.ddl_as_string = s.ddl_as_string ∧
      s'.executed_at_least_once = s.executed_at_least_once ∧
      (s.executed_at_least_once = true →
        s'.get_ddl_as_array = .ok s.ddl_as_array ∧
        s'.get_ddl_as_string = .ok s.ddl_as_string) := by
  intro cfg s ssid ext line report positive s' h
  obtain ⟨h1, h2, h3⟩ := execute_report_error_state cfg s ssid ext _ s' h
    (fun hc => PyErr.noConfusion hc)
  refine ⟨h1, h2, h3, fun hx => ?_⟩
  have hx' : s'.executed_at_least_once = true := hx ▸ h3
  simp [Adb2re.get_ddl_as_array, Adb2re.get_ddl_as_string, hx', h1, h2]

/-- Witness for C10: a concrete execution whose report lacks the success
banner leaves the DDL fields and the executed flag untouched. -/
theorem claim_c10_witness :
    c10BadState.ddl_as_array = readyState.ddl_as_array ∧
    c10BadState.ddl_as_string = readyState.ddl_as_string ∧
    c10BadState.executed_at_least_once = readyState.executed_at_least_once :=
  have h := claim_c10_report_validation_preserves_results sampleConfig readyState
    (pyStr "DSN1") badExt (pyStr "ADB2GEN - Create DDL from catalog info")
    (pyStr "bad report") true c10BadState (by decide)
  ⟨h.1, h.2.1, h.2.2.1⟩

/-- Claim C2 (code bug): the parameter list built at the all-defaults state
nevertheless contains `SQLCMTS='N'`, an option whose value still equals its
compile-time default `N` — line 372 of the source compares `SQLCMTS`
against `''` instead of its default `'N'`, contradicting the source's own
comment that options are only added when they differ from the default. -/
theorem claim_c2_sqlcmts_emitted_at_default :
    buildParameterList sampleConfig (freshState sampleConfig) =
      pyStr "DB2SYS='DSN1',DB2REL='1215',SQLCMTS='N';" ∧
    occursIn (pyStr ",SQLCMTS='N'")
      (buildParameterList sampleConfig (freshState sampleConfig)) = true ∧
    (freshState sampleConfig).SQLCMTS = pyStr "N" := by
  refine ⟨by decide, by decide, by decide⟩
